import Mathlib

/-!
Shallow embedding of `src/main.py` (LinkedIn outreach automation).

The page driver (Playwright) is modelled as an oracle environment: every
awaited driver call that can fail is an `Except String` value supplied by the
environment, and every `query_selector` call is an `Except String Bool`
(whether an element was found) or carries the element's data.  The
interpreter `run_automation` mirrors the control flow of `_run_automation`
line by line, threading an explicit `RunState` (the `results` dict plus an
instrumentation trace of pacing delays, navigation events and per-profile
entries).  Python string operations are re-implemented on `List Char` with
Python semantics (`str.strip`, `str.split()`, `str.replace`, substring `in`)
restricted to ASCII whitespace.
-/

/-- Does `l` start with `p`? (used to implement Python substring search). -/
def chStarts : List Char → List Char → Bool
  | _, [] => true
  | [], _ :: _ => false
  | a :: as, b :: bs => a == b && chStarts as bs

/-- Python `needle in hay` on char lists: contiguous substring test. -/
def chContains (needle : List Char) : List Char → Bool
  | [] => needle.isEmpty
  | c :: cs => chStarts (c :: cs) needle || chContains needle cs

/-- Python `needle in hay` for strings. -/
def strContains (hay needle : String) : Bool :=
  chContains needle.data hay.data

/-- Python `str.replace` on char lists: replaces every non-overlapping
occurrence of `needle`, scanning left to right.  (All call sites in the
source use a non-empty `needle`.)  Structural recursion on a fuel argument:
each step consumes at least one character, so `l.length` fuel suffices. -/
def chReplace (needle repl : List Char) : Nat → List Char → List Char
  | _, [] => []
  | 0, l => l
  | fuel + 1, c :: cs =>
    if chStarts (c :: cs) needle && !needle.isEmpty then
      repl ++ chReplace needle repl fuel (List.drop (needle.length - 1) cs)
    else
      c :: chReplace needle repl fuel cs

/-- Python `s.replace(needle, repl)`. -/
def pyReplace (s needle repl : String) : String :=
  ⟨chReplace needle.data repl.data s.data.length s.data⟩

instance {ε α : Type} [DecidableEq ε] [DecidableEq α] : DecidableEq (Except ε α) :=
  fun x y =>
    match x, y with
    | .ok a, .ok b =>
      if h : a = b then isTrue (by rw [h]) else isFalse (by simp [h])
    | .error a, .error b =>
      if h : a = b then isTrue (by rw [h]) else isFalse (by simp [h])
    | .ok _, .error _ => isFalse (by simp)
    | .error _, .ok _ => isFalse (by simp)

/-- Python `s.strip()` (ASCII whitespace). -/
def pyStrip (s : String) : String :=
  ⟨((s.data.dropWhile Char.isWhitespace).reverse.dropWhile Char.isWhitespace).reverse⟩

/-- Python `s.split("\n")[0]`: the prefix of `s` before the first newline. -/
def pyFirstLine (s : String) : String :=
  ⟨s.data.takeWhile (fun c => c != '\n')⟩

/-- Python `s.split("?")[0]`: the prefix of `s` before the first `?`. -/
def pyBeforeQuery (s : String) : String :=
  ⟨s.data.takeWhile (fun c => c != '?')⟩

/-- Python `s.split()`: split on whitespace runs, dropping empty pieces. -/
def pySplitWs (s : String) : List String :=
  let step := fun (c : Char) (acc : List Char × List String) =>
    if c.isWhitespace then
      (([] : List Char), if acc.1.isEmpty then acc.2 else String.mk acc.1 :: acc.2)
    else
      (c :: acc.1, acc.2)
  let r := s.data.foldr step ([], [])
  if r.1.isEmpty then r.2 else String.mk r.1 :: r.2

/-- The rational value of a Python `int` (kernel-reducible normal form;
equal to the cast, see `ratOfInt_eq`). -/
def ratOfInt (n : Int) : ℚ := ⟨n, 1, one_ne_zero, Nat.coprime_one_right _⟩

/-- The float literal `0.8` of line 200 (= 4/5). -/
def ratFillLo : ℚ := ⟨4, 5, by norm_num, by norm_num⟩

/-- The float literal `1.5` of line 200 (= 3/2). -/
def ratFillHi : ℚ := ⟨3, 2, by norm_num, by norm_num⟩

theorem ratOfInt_eq (n : Int) : ratOfInt n = (n : ℚ) := by
  rw [ratOfInt, Rat.mk'_eq_divInt]
  norm_num

theorem ratFillLo_eq : ratFillLo = 4/5 := by
  rw [ratFillLo, Rat.mk'_eq_divInt, Rat.divInt_eq_div]; norm_num

theorem ratFillHi_eq : ratFillHi = 3/2 := by
  rw [ratFillHi, Rat.mk'_eq_divInt, Rat.divInt_eq_div]; norm_num

/-- `RunRequest` (src/main.py lines 19-32): the run configuration.
`max_messages`, `delay_min`, `delay_max` are Python `int`s. -/
structure RunRequest where
  email : String
  password : String
  keywords : List String
  max_messages : Int
  delay_min : Int
  delay_max : Int
  dry_run : Bool
  message_template : String
deriving DecidableEq

/-- A profile dict `{"name": ..., "title": ..., "url": ...}` (line 144). -/
structure Profile where
  name : String
  title : String
  url : String
deriving DecidableEq

/-- A `would_send` record (lines 179-184). -/
structure WouldSendRec where
  name : String
  title : String
  url : String
  message_preview : String
deriving DecidableEq

/-- A `skipped` record `{**profile, "reason": ...}` (lines 172, 195). -/
structure SkipRec where
  profile : Profile
  reason : String
deriving DecidableEq

/-- An `errors` record `{**profile, "error": str(e)}` (line 216). -/
structure ErrRec where
  profile : Profile
  error : String
deriving DecidableEq

/-- The `summary` dict of the response (lines 225-230). -/
structure Summary where
  mode : String
  totalSent : Nat
  totalSkipped : Nat
  totalErrors : Nat
deriving DecidableEq

/-- `RunResponse` (src/main.py lines 35-42). -/
structure RunResponse where
  success : Bool
  dry_run : Bool
  summary : Summary
  would_send : List WouldSendRec
  sent : List Profile
  skipped : List SkipRec
  errors : List ErrRec
deriving DecidableEq

/-- `_build_message` (src/main.py lines 68-74).  `name.split()[0]` raises
`IndexError` when the name has no whitespace-delimited token; `title or
"profissional"` falls back on the empty title. -/
def build_message (template name title : String) : Except String String :=
  match pySplitWs name with
  | [] => .error "list index out of range"
  | first_name :: _ =>
    .ok (pyReplace (pyReplace template "{nome}" first_name)
          "{cargo}" (if title = "" then "profissional" else title))

/-- The search URL built at lines 118-122. -/
def search_url (keyword : String) : String :=
  "https://www.linkedin.com/search/results/people/?keywords="
    ++ pyReplace keyword " " "%20" ++ "&origin=GLOBAL_SEARCH_HEADER"

/-- Data behind an element handle: `inner_text()` and `get_attribute("href")`,
each a driver call that can fail; `get_attribute` may return `None`. -/
structure Element where
  innerText : Except String String
  href : Except String (Option String)

/-- Driver responses for one search-result container (lines 130-146): the
three `query_selector` calls made inside the per-entry `try`. -/
structure RawEntry where
  name_el : Except String (Option Element)
  title_el : Except String (Option Element)
  link_el : Except String (Option Element)

/-- Driver responses consumed while visiting one profile (lines 156-213).
`Bool` query fields tell whether the selector resolved to an element. -/
structure VisitOracle where
  nav : Except String Unit
  navWait : Except String Unit
  btnQ1 : Except String Bool
  btnQ2 : Except String Bool
  btnQ3 : Except String Bool
  btnClick : Except String Unit
  boxQ1 : Except String Bool
  boxQ2 : Except String Bool
  boxClick : Except String Unit
  boxFill : Except String Unit
  sendQ1 : Except String Bool
  sendQ2 : Except String Bool
  sendClick : Except String Unit
  boxPress : Except String Unit

/-- Driver responses for one keyword iteration (lines 118-146): search
navigation, settle, `query_selector_all`, and one `VisitOracle` per visited
profile (indexed by position in this keyword's extracted profile list). -/
structure KeywordData where
  searchNav : Except String Unit
  searchWait : Except String Unit
  queryAll : Except String (List RawEntry)
  visits : Nat → VisitOracle

/-- Driver responses for the login phase (lines 101-108): five awaited calls
and the settled `page.url`. -/
structure LoginOracle where
  gotoLogin : Except String Unit
  fillUser : Except String Unit
  fillPass : Except String Unit
  clickSubmit : Except String Unit
  waitLoad : Except String Unit
  url : String

/-- The whole driver environment of one run. -/
structure Env where
  login : LoginOracle
  kwData : Nat → KeywordData

/-- Call sites of `_random_delay` in the source. -/
inductive DelaySite where
  | afterLogin      -- line 106: (2, 4)
  | afterSearch     -- line 125: (2, 3)
  | beforeProfile   -- line 153: (delay_min, delay_max)
  | afterProfileNav -- line 158: (2, 3)
  | afterBtnClick   -- line 189: (1, 2)
  | afterFill       -- line 200: (0.8, 1.5)
  | afterSend       -- line 211: (1, 2)
  | interProfile    -- line 218: (delay_min + 2, delay_max + 3)
deriving DecidableEq

/-- Instrumentation events recorded by the interpreter: each pacing delay
with the bounds passed to `_random_delay`, the `browser.close()` calls, each
search navigation issued (line 123), and the entry of a profile into the
per-profile machine (recording `totalSent` at that moment, line 153). -/
inductive Event where
  | delayEv (site : DelaySite) (lo hi : ℚ)
  | browserClose
  | searchNav (url : String)
  | profileEnter (totalSentAt : Nat)
deriving DecidableEq

/-- The mutable `results` dict (line 78) plus the instrumentation trace. -/
structure RunState where
  sent : List Profile
  would_send : List WouldSendRec
  skipped : List SkipRec
  errors : List ErrRec
  totalSent : Nat
  trace : List Event
deriving DecidableEq

def initState : RunState := ⟨[], [], [], [], 0, []⟩

def pushEvent (st : RunState) (e : Event) : RunState :=
  { st with trace := st.trace ++ [e] }

def pushDelay (st : RunState) (site : DelaySite) (lo hi : ℚ) : RunState :=
  pushEvent st (.delayEv site lo hi)

def errAppend (st : RunState) (p : Profile) (msg : String) : RunState :=
  { st with errors := st.errors ++ [⟨p, msg⟩] }

def skipAppend (st : RunState) (p : Profile) (reason : String) : RunState :=
  { st with skipped := st.skipped ++ [⟨p, reason⟩] }

def wouldAppend (st : RunState) (p : Profile) (preview : String) : RunState :=
  { st with would_send := st.would_send ++ [⟨p.name, p.title, p.url, preview⟩],
            totalSent := st.totalSent + 1 }

def sentAppend (st : RunState) (p : Profile) : RunState :=
  { st with sent := st.sent ++ [p], totalSent := st.totalSent + 1 }

/-- The trailing delay at line 218 (`delay_min + 2`, `delay_max + 3`). -/
def interDelay (cfg : RunRequest) (st : RunState) : RunState :=
  pushDelay st .interProfile (ratOfInt (cfg.delay_min + 2)) (ratOfInt (cfg.delay_max + 3))

/-- The `for sel in selectors: msg_btn = query(sel); if msg_btn: break`
pattern (lines 166-169, 191-193, 202-204): first query that resolves wins,
a raising query propagates. -/
def locateFirst : List (Except String Bool) → Except String Bool
  | [] => .ok false
  | q :: rest =>
    match q with
    | .error e => .error e
    | .ok true => .ok true
    | .ok false => locateFirst rest

/-- Extraction of one search-result entry (lines 130-146).  The whole body
is inside `try: ... except Exception: continue`; any raising driver call
drops the entry.  An entry missing the name or link element, or whose href
is `None`/empty/lacking `"/in/"`, is dropped too. -/
def extractEntry (e : RawEntry) : Option Profile :=
  match e.name_el with
  | .error _ => none
  | .ok nameOpt =>
    match e.title_el with
    | .error _ => none
    | .ok titleOpt =>
      match e.link_el with
      | .error _ => none
      | .ok linkOpt =>
        match nameOpt, linkOpt with
        | some nameEl, some linkEl =>
          (match nameEl.innerText with
           | .error _ => none
           | .ok raw_name =>
             let name := pyStrip (pyFirstLine (pyStrip raw_name))
             match (match titleOpt with
                    | some titleEl => titleEl.innerText.map pyStrip
                    | none => .ok "") with
             | .error _ => none
             | .ok title =>
               match linkEl.href with
               | .error _ => none
               | .ok hrefOpt =>
                 match hrefOpt with
                 | none => none
                 | some href =>
                   if href ≠ "" ∧ strContains href "/in/" then
                     some ⟨name, title, pyBeforeQuery href⟩
                   else none)
        | _, _ => none

/-- The body of the per-profile loop (lines 153-218): pacing delay, then the
`try` block whose failures are caught at line 215 and recorded as one error
record, then — only on paths that do not `continue` (lines 173, 186, 196) —
the trailing inter-profile delay of line 218. -/
def processProfile (cfg : RunRequest) (profile : Profile) (o : VisitOracle)
    (st0 : RunState) : RunState :=
  let st := pushDelay st0 .beforeProfile (ratOfInt cfg.delay_min) (ratOfInt cfg.delay_max)
  match o.nav with
  | .error e => interDelay cfg (errAppend st profile e)
  | .ok _ =>
    match o.navWait with
    | .error e => interDelay cfg (errAppend st profile e)
    | .ok _ =>
      let st := pushDelay st .afterProfileNav 2 3
      match locateFirst [o.btnQ1, o.btnQ2, o.btnQ3] with
      | .error e => interDelay cfg (errAppend st profile e)
      | .ok false =>
        skipAppend st profile "Botao mensagem nao encontrado (nao e conexao)"
      | .ok true =>
        match build_message cfg.message_template profile.name profile.title with
        | .error e => interDelay cfg (errAppend st profile e)
        | .ok message_preview =>
          if cfg.dry_run then
            wouldAppend st profile message_preview
          else
            match o.btnClick with
            | .error e => interDelay cfg (errAppend st profile e)
            | .ok _ =>
              let st := pushDelay st .afterBtnClick 1 2
              match locateFirst [o.boxQ1, o.boxQ2] with
              | .error e => interDelay cfg (errAppend st profile e)
              | .ok false => skipAppend st profile "Campo de texto nao encontrado"
              | .ok true =>
                match o.boxClick with
                | .error e => interDelay cfg (errAppend st profile e)
                | .ok _ =>
                  match o.boxFill with
                  | .error e => interDelay cfg (errAppend st profile e)
                  | .ok _ =>
                    let st := pushDelay st .afterFill ratFillLo ratFillHi
                    match locateFirst [o.sendQ1, o.sendQ2] with
                    | .error e => interDelay cfg (errAppend st profile e)
                    | .ok sendFound =>
                      match (if sendFound then o.sendClick else o.boxPress) with
                      | .error e => interDelay cfg (errAppend st profile e)
                      | .ok _ =>
                        let st := pushDelay st .afterSend 1 2
                        interDelay cfg (sentAppend st profile)

/-- The per-keyword profile loop (lines 149-218), with the quota check of
lines 150-151 at the top of each iteration. -/
def processProfiles (cfg : RunRequest) (ps : List Profile)
    (visits : Nat → VisitOracle) (i : Nat) (st : RunState) : RunState :=
  match ps with
  | [] => st
  | p :: rest =>
    if (st.totalSent : Int) ≥ cfg.max_messages then st
    else
      processProfiles cfg rest visits (i + 1)
        (processProfile cfg p (visits i)
          (pushEvent st (.profileEnter st.totalSent)))

/-- One keyword iteration (lines 118-218): search navigation, settle, the
pacing delay of line 125, extraction, then the profile loop.  Failures here
are not caught inside `_run_automation`; they propagate (carrying the state
reached so far, for the trace). -/
def runKeyword (cfg : RunRequest) (kd : KeywordData) (kw : String)
    (st : RunState) : Except (String × RunState) RunState :=
  let st := pushEvent st (.searchNav (search_url kw))
  match kd.searchNav with
  | .error e => .error (e, st)
  | .ok _ =>
    match kd.searchWait with
    | .error e => .error (e, st)
    | .ok _ =>
      let st := pushDelay st .afterSearch 2 3
      match kd.queryAll with
      | .error e => .error (e, st)
      | .ok entries =>
        .ok (processProfiles cfg (entries.filterMap extractEntry) kd.visits 0 st)

/-- The keyword loop (lines 114-218) with the quota check of lines 115-116. -/
def runKeywords (cfg : RunRequest) (env : Env) :
    List String → Nat → RunState → Except (String × RunState) RunState
  | [], _, st => .ok st
  | kw :: rest, i, st =>
    if (st.totalSent : Int) ≥ cfg.max_messages then .ok st
    else
      match runKeyword cfg (env.kwData i) kw st with
      | .error es => .error es
      | .ok st' => runKeywords cfg env rest (i + 1) st'

/-- The login phase (lines 100-111): five awaited driver calls, the pacing
delay of line 106, then the `logged_in` check on `page.url`; on failure the
browser is closed and `Exception("Login falhou. ...")` is raised. -/
def doLogin (cfg : RunRequest) (lo : LoginOracle) (st : RunState) :
    Except (String × RunState) RunState :=
  match lo.gotoLogin with
  | .error e => .error (e, st)
  | .ok _ =>
    match lo.fillUser with
    | .error e => .error (e, st)
    | .ok _ =>
      match lo.fillPass with
      | .error e => .error (e, st)
      | .ok _ =>
        match lo.clickSubmit with
        | .error e => .error (e, st)
        | .ok _ =>
          match lo.waitLoad with
          | .error e => .error (e, st)
          | .ok _ =>
            let st := pushDelay st .afterLogin 2 4
            let logged_in :=
              strContains lo.url "feed" || strContains lo.url "mynetwork"
            if logged_in then .ok st
            else
              .error ("Login falhou. Verifique credenciais ou CAPTCHA.",
                      pushEvent st .browserClose)

/-- `_run_automation` (lines 77-235).  Returns the raised exception message
or the `RunResponse`, paired with the final `RunState` (for the trace).
Browser/context/page creation (lines 80-98) is modelled as infallible. -/
def run_automation (cfg : RunRequest) (env : Env) :
    Except String RunResponse × RunState :=
  match doLogin cfg env.login initState with
  | .error (e, st) => (.error e, st)
  | .ok st =>
    match runKeywords cfg env cfg.keywords 0 st with
    | .error (e, st) => (.error e, st)
    | .ok st =>
      let st := pushEvent st .browserClose
      (.ok { success := true
             dry_run := cfg.dry_run
             summary :=
               { mode := if cfg.dry_run then "dry_run (simulacao)"
                         else "real (mensagens enviadas)"
                 totalSent := st.totalSent
                 totalSkipped := st.skipped.length
                 totalErrors := st.errors.length }
             would_send := st.would_send
             sent := st.sent
             skipped := st.skipped
             errors := st.errors }, st)

/-! ### Trace measures and per-profile structural lemmas -/

/-- Is this event the entry of a profile into the per-profile machine? -/
def isEnter : Event → Bool
  | .profileEnter _ => true
  | _ => false

/-- Is this event the trailing inter-profile delay of line 218? -/
def isInterDelay : Event → Bool
  | .delayEv .interProfile _ _ => true
  | _ => false

/-- Number of profiles that entered the per-profile machine. -/
def countEnter (st : RunState) : Nat := st.trace.countP isEnter

/-- Number of inter-profile delays executed. -/
def countInter (st : RunState) : Nat := st.trace.countP isInterDelay

/-- Total number of outcome records across the four result lists. -/
def outcomeCount (st : RunState) : Nat :=
  st.would_send.length + st.sent.length + st.skipped.length + st.errors.length

/-- A profile entered although the quota was already reached. -/
def offQuota (cfg : RunRequest) : Event → Bool
  | .profileEnter n => decide ((n : Int) ≥ cfg.max_messages)
  | _ => false

/-- Number of quota-violating profile entries in the trace. -/
def badEnter (cfg : RunRequest) (st : RunState) : Nat :=
  st.trace.countP (offQuota cfg)

/-- Boolean check that a recorded delay carries exactly the bounds the
source passes to `_random_delay` at its call site. -/
def evOK (cfg : RunRequest) : Event → Bool
  | .delayEv .afterLogin lo hi => lo == 2 && hi == 4
  | .delayEv .afterSearch lo hi => lo == 2 && hi == 3
  | .delayEv .beforeProfile lo hi =>
    lo == ratOfInt cfg.delay_min && hi == ratOfInt cfg.delay_max
  | .delayEv .afterProfileNav lo hi => lo == 2 && hi == 3
  | .delayEv .afterBtnClick lo hi => lo == 1 && hi == 2
  | .delayEv .afterFill lo hi => lo == ratFillLo && hi == ratFillHi
  | .delayEv .afterSend lo hi => lo == 1 && hi == 2
  | .delayEv .interProfile lo hi =>
    lo == ratOfInt (cfg.delay_min + 2) && hi == ratOfInt (cfg.delay_max + 3)
  | _ => true

/-- Number of delay events with wrong bounds. -/
def badDelay (cfg : RunRequest) (st : RunState) : Nat :=
  st.trace.countP (fun e => !evOK cfg e)

/-- Propositional version of the per-site delay bounds. -/
def delayBoundsOK (cfg : RunRequest) : Event → Prop
  | .delayEv .afterLogin lo hi => lo = 2 ∧ hi = 4
  | .delayEv .afterSearch lo hi => lo = 2 ∧ hi = 3
  | .delayEv .beforeProfile lo hi =>
    lo = ratOfInt cfg.delay_min ∧ hi = ratOfInt cfg.delay_max
  | .delayEv .afterProfileNav lo hi => lo = 2 ∧ hi = 3
  | .delayEv .afterBtnClick lo hi => lo = 1 ∧ hi = 2
  | .delayEv .afterFill lo hi => lo = ratFillLo ∧ hi = ratFillHi
  | .delayEv .afterSend lo hi => lo = 1 ∧ hi = 2
  | .delayEv .interProfile lo hi =>
    lo = ratOfInt (cfg.delay_min + 2) ∧ hi = ratOfInt (cfg.delay_max + 3)
  | _ => True

theorem evOK_delayBoundsOK {cfg : RunRequest} {e : Event}
    (h : evOK cfg e = true) : delayBoundsOK cfg e := by
  cases e with
  | delayEv site lo hi =>
    cases site <;> simp [evOK] at h <;> simp [delayBoundsOK, h]
  | browserClose => trivial
  | searchNav _ => trivial
  | profileEnter _ => trivial

theorem outcomeCount_processProfile (cfg : RunRequest) (p : Profile)
    (o : VisitOracle) (st : RunState) :
    outcomeCount (processProfile cfg p o st) = outcomeCount st + 1 := by
  unfold processProfile
  repeat' split
  all_goals
    simp [outcomeCount, interDelay, pushDelay, pushEvent, errAppend, skipAppend,
          wouldAppend, sentAppend]
  all_goals omega

theorem countEnter_processProfile (cfg : RunRequest) (p : Profile)
    (o : VisitOracle) (st : RunState) :
    countEnter (processProfile cfg p o st) = countEnter st := by
  unfold processProfile
  repeat' split
  all_goals
    simp [countEnter, isEnter, interDelay, pushDelay, pushEvent, errAppend,
          skipAppend, wouldAppend, sentAppend, List.countP_append]

theorem countInter_processProfile (cfg : RunRequest) (p : Profile)
    (o : VisitOracle) (st : RunState) :
    countInter (processProfile cfg p o st) + st.sent.length + st.errors.length
      = countInter st + (processProfile cfg p o st).sent.length
          + (processProfile cfg p o st).errors.length := by
  unfold processProfile
  repeat' split
  all_goals
    simp [countInter, isInterDelay, interDelay, pushDelay, pushEvent, errAppend,
          skipAppend, wouldAppend, sentAppend, List.countP_append]
  all_goals omega

theorem totalSent_processProfile (cfg : RunRequest) (p : Profile)
    (o : VisitOracle) (st : RunState) :
    (processProfile cfg p o st).totalSent = st.totalSent ∨
      (processProfile cfg p o st).totalSent = st.totalSent + 1 := by
  unfold processProfile
  repeat' split
  all_goals
    simp [interDelay, pushDelay, pushEvent, errAppend, skipAppend, wouldAppend,
          sentAppend]

theorem badEnter_processProfile (cfg : RunRequest) (p : Profile)
    (o : VisitOracle) (st : RunState) :
    badEnter cfg (processProfile cfg p o st) = badEnter cfg st := by
  unfold processProfile
  repeat' split
  all_goals
    simp [badEnter, offQuota, interDelay, pushDelay, pushEvent, errAppend,
          skipAppend, wouldAppend, sentAppend, List.countP_append]

theorem badDelay_processProfile (cfg : RunRequest) (p : Profile)
    (o : VisitOracle) (st : RunState) :
    badDelay cfg (processProfile cfg p o st) = badDelay cfg st := by
  unfold processProfile
  repeat' split
  all_goals
    simp [badDelay, evOK, interDelay, pushDelay, pushEvent, errAppend,
          skipAppend, wouldAppend, sentAppend, List.countP_append]

theorem lists_processProfile (cfg : RunRequest) (p : Profile)
    (o : VisitOracle) (st : RunState) :
    ((processProfile cfg p o st).sent = st.sent ∨
      (processProfile cfg p o st).sent = st.sent ++ [p]) ∧
    ((processProfile cfg p o st).would_send = st.would_send ∨
      ∃ m, (processProfile cfg p o st).would_send
            = st.would_send ++ [⟨p.name, p.title, p.url, m⟩]) ∧
    ((processProfile cfg p o st).skipped = st.skipped ∨
      ∃ r, (processProfile cfg p o st).skipped = st.skipped ++ [⟨p, r⟩]) ∧
    ((processProfile cfg p o st).errors = st.errors ∨
      ∃ m, (processProfile cfg p o st).errors = st.errors ++ [⟨p, m⟩]) := by
  unfold processProfile
  repeat' split
  all_goals
    simp [interDelay, pushDelay, pushEvent, errAppend, skipAppend, wouldAppend,
          sentAppend]

theorem errors_processProfile (cfg : RunRequest) (p : Profile)
    (o : VisitOracle) (st : RunState) :
    (processProfile cfg p o st).errors = st.errors ∨
      ∃ m, (processProfile cfg p o st).errors = st.errors ++ [⟨p, m⟩] ∧
        (processProfile cfg p o st).sent = st.sent ∧
        (processProfile cfg p o st).would_send = st.would_send ∧
        (processProfile cfg p o st).skipped = st.skipped ∧
        (processProfile cfg p o st).totalSent = st.totalSent := by
  unfold processProfile
  repeat' split
  all_goals
    simp [interDelay, pushDelay, pushEvent, errAppend, skipAppend, wouldAppend,
          sentAppend]

theorem sent_processProfile_dry (cfg : RunRequest) (p : Profile)
    (o : VisitOracle) (st : RunState) (h : cfg.dry_run = true) :
    (processProfile cfg p o st).sent = st.sent := by
  unfold processProfile
  repeat' split
  all_goals
    simp_all [interDelay, pushDelay, pushEvent, errAppend, skipAppend,
              wouldAppend, sentAppend]

theorem would_processProfile_real (cfg : RunRequest) (p : Profile)
    (o : VisitOracle) (st : RunState) (h : cfg.dry_run = false) :
    (processProfile cfg p o st).would_send = st.would_send := by
  unfold processProfile
  repeat' split
  all_goals
    simp_all [interDelay, pushDelay, pushEvent, errAppend, skipAppend,
              wouldAppend, sentAppend]

/-- On the dry-run path with the affordance located and a non-degenerate
name, the profile is recorded in `would_send` with the composed preview and
no click/fill/send oracle field is consulted. -/
theorem dry_located_processProfile (cfg : RunRequest) (p : Profile)
    (o : VisitOracle) (st : RunState) (f : String) (rest : List String)
    (hdry : cfg.dry_run = true) (hnav : o.nav = .ok ())
    (hwait : o.navWait = .ok ())
    (hbtn : locateFirst [o.btnQ1, o.btnQ2, o.btnQ3] = .ok true)
    (hname : pySplitWs p.name = f :: rest) :
    processProfile cfg p o st =
      wouldAppend
        (pushDelay (pushDelay st .beforeProfile (ratOfInt cfg.delay_min) (ratOfInt cfg.delay_max))
          .afterProfileNav 2 3) p
        (pyReplace (pyReplace cfg.message_template "{nome}" f) "{cargo}"
          (if p.title = "" then "profissional" else p.title)) := by
  unfold processProfile
  rw [hnav, hwait, hbtn]
  simp [build_message, hname, hdry]

theorem processProfiles_cons (cfg : RunRequest) (p : Profile)
    (rest : List Profile) (visits : Nat → VisitOracle) (i : Nat)
    (st : RunState) (h : ¬ (st.totalSent : Int) ≥ cfg.max_messages) :
    processProfiles cfg (p :: rest) visits i st =
      processProfiles cfg rest visits (i + 1)
        (processProfile cfg p (visits i)
          (pushEvent st (.profileEnter st.totalSent))) := by
  simp [processProfiles, h]

/-! ### A composable preservation relation through the run -/

def errStateOf : Except (String × RunState) RunState → RunState
  | .ok st => st
  | .error (_, st) => st

/-- All run-global invariants relating a state to a later state of the same
run: outcome records grow in step with profile entries, inter-profile delays
grow in step with sent/errored records, no quota-violating entry and no
wrongly-bounded delay is added, the quota bound is preserved, and the
mode-forbidden list never grows. -/
def stepOK (cfg : RunRequest) (st st' : RunState) : Prop :=
  (outcomeCount st' + countEnter st = outcomeCount st + countEnter st') ∧
  (countInter st' + st.sent.length + st.errors.length
     = countInter st + st'.sent.length + st'.errors.length) ∧
  badEnter cfg st' = badEnter cfg st ∧
  badDelay cfg st' = badDelay cfg st ∧
  ((st.totalSent : Int) ≤ cfg.max_messages →
    (st'.totalSent : Int) ≤ cfg.max_messages) ∧
  (cfg.dry_run = true → st'.sent = st.sent) ∧
  (cfg.dry_run = false → st'.would_send = st.would_send)

theorem stepOK_refl (cfg : RunRequest) (st : RunState) : stepOK cfg st st :=
  ⟨rfl, rfl, rfl, rfl, id, fun _ => rfl, fun _ => rfl⟩

theorem stepOK_trans {cfg : RunRequest} {s1 s2 s3 : RunState}
    (h12 : stepOK cfg s1 s2) (h23 : stepOK cfg s2 s3) : stepOK cfg s1 s3 := by
  obtain ⟨a12, b12, c12, d12, e12, f12, g12⟩ := h12
  obtain ⟨a23, b23, c23, d23, e23, f23, g23⟩ := h23
  exact ⟨by omega, by omega, by omega, by omega, fun h => e23 (e12 h),
         fun h => (f23 h).trans (f12 h), fun h => (g23 h).trans (g12 h)⟩

/-- One iteration of the per-profile loop (profile entry event followed by
the profile body) preserves all run-global invariants, provided the quota
check admitted the profile. -/
theorem stepOK_iter (cfg : RunRequest) (p : Profile) (o : VisitOracle)
    (st : RunState) (hlt : ¬ (st.totalSent : Int) ≥ cfg.max_messages) :
    stepOK cfg st (processProfile cfg p o (pushEvent st (.profileEnter st.totalSent))) := by
  set st1 := pushEvent st (.profileEnter st.totalSent) with hst1
  have hout : outcomeCount st1 = outcomeCount st := by
    simp [outcomeCount, hst1, pushEvent]
  have hen : countEnter st1 = countEnter st + 1 := by
    simp [countEnter, hst1, pushEvent, isEnter, List.countP_append]
  have hin : countInter st1 = countInter st := by
    simp [countInter, hst1, pushEvent, isInterDelay, List.countP_append]
  have hbe : badEnter cfg st1 = badEnter cfg st := by
    simp [badEnter, hst1, pushEvent, offQuota, List.countP_append, hlt]
  have hbd : badDelay cfg st1 = badDelay cfg st := by
    simp [badDelay, hst1, pushEvent, evOK, List.countP_append]
  have hts : st1.totalSent = st.totalSent := by simp [hst1, pushEvent]
  have hlists : st1.sent = st.sent ∧ st1.would_send = st.would_send ∧
      st1.skipped = st.skipped ∧ st1.errors = st.errors := by
    simp [hst1, pushEvent]
  have h1 := outcomeCount_processProfile cfg p o st1
  have h2 := countEnter_processProfile cfg p o st1
  have h3 := countInter_processProfile cfg p o st1
  have h4 := totalSent_processProfile cfg p o st1
  have h5 := badEnter_processProfile cfg p o st1
  have h6 := badDelay_processProfile cfg p o st1
  have h7 := fun h => sent_processProfile_dry cfg p o st1 h
  have h8 := fun h => would_processProfile_real cfg p o st1 h
  obtain ⟨hl1, hl2, hl3, hl4⟩ := hlists
  refine ⟨by omega, ?_, by omega, by omega, ?_, ?_, ?_⟩
  · rw [hl1, hl4] at h3; omega
  · intro _; omega
  · intro h; rw [h7 h, hl1]
  · intro h; rw [h8 h, hl2]

theorem stepOK_processProfiles (cfg : RunRequest) (visits : Nat → VisitOracle) :
    ∀ (ps : List Profile) (i : Nat) (st : RunState),
      stepOK cfg st (processProfiles cfg ps visits i st)
  | [], _, st => stepOK_refl cfg st
  | p :: rest, i, st => by
    unfold processProfiles
    split
    · exact stepOK_refl cfg st
    · next hlt =>
      exact stepOK_trans (stepOK_iter cfg p (visits i) st hlt)
        (stepOK_processProfiles cfg visits rest (i + 1) _)

theorem stepOK_doLogin (cfg : RunRequest) (lo : LoginOracle) (st : RunState) :
    stepOK cfg st (errStateOf (doLogin cfg lo st)) := by
  unfold doLogin
  repeat' split
  all_goals by_cases h1 : strContains lo.url "feed" = true
  all_goals by_cases h2 : strContains lo.url "mynetwork" = true
  all_goals
    refine ⟨?_, ?_, ?_, ?_, ?_, ?_, ?_⟩ <;>
      simp [errStateOf, outcomeCount, countEnter, countInter, badEnter, badDelay,
            pushDelay, pushEvent, isEnter, isInterDelay, offQuota, evOK,
            List.countP_append, h1, h2]

theorem stepOK_runKeyword (cfg : RunRequest) (kd : KeywordData) (kw : String)
    (st : RunState) :
    stepOK cfg st (errStateOf (runKeyword cfg kd kw st)) := by
  have base : stepOK cfg st
      (pushDelay (pushEvent st (.searchNav (search_url kw))) .afterSearch 2 3) := by
    refine ⟨?_, ?_, ?_, ?_, ?_, ?_, ?_⟩ <;>
      simp [outcomeCount, countEnter, countInter, badEnter, badDelay,
            pushDelay, pushEvent, isEnter, isInterDelay, offQuota, evOK,
            List.countP_append]
  have base1 : stepOK cfg st (pushEvent st (.searchNav (search_url kw))) := by
    refine ⟨?_, ?_, ?_, ?_, ?_, ?_, ?_⟩ <;>
      simp [outcomeCount, countEnter, countInter, badEnter, badDelay,
            pushDelay, pushEvent, isEnter, isInterDelay, offQuota, evOK,
            List.countP_append]
  unfold runKeyword
  split
  · next e heq => simpa [errStateOf] using base1
  · split
    · next e heq => simpa [errStateOf] using base1
    · split
      · next e heq => simpa [errStateOf] using base
      · next entries heq =>
        exact stepOK_trans base
          (by simpa [errStateOf] using
            stepOK_processProfiles cfg kd.visits (entries.filterMap extractEntry) 0 _)

theorem stepOK_runKeywords (cfg : RunRequest) (env : Env) :
    ∀ (ks : List String) (i : Nat) (st : RunState),
      stepOK cfg st (errStateOf (runKeywords cfg env ks i st))
  | [], _, st => stepOK_refl cfg st
  | kw :: rest, i, st => by
    unfold runKeywords
    split
    · exact stepOK_refl cfg st
    · split
      · next es heq =>
        have h := stepOK_runKeyword cfg (env.kwData i) kw st
        rwa [heq] at h
      · next st' heq =>
        have h1 := stepOK_runKeyword cfg (env.kwData i) kw st
        rw [heq] at h1
        exact stepOK_trans h1 (stepOK_runKeywords cfg env rest (i + 1) st')

theorem stepOK_pushClose (cfg : RunRequest) (st : RunState) :
    stepOK cfg st (pushEvent st .browserClose) := by
  refine ⟨?_, ?_, ?_, ?_, ?_, ?_, ?_⟩ <;>
    simp [outcomeCount, countEnter, countInter, badEnter, badDelay,
          pushEvent, isEnter, isInterDelay, offQuota, evOK, List.countP_append]

/-- All run-global invariants hold between the initial state and the final
state of any run, whether it returns a response or raises. -/
theorem stepOK_run (cfg : RunRequest) (env : Env) :
    stepOK cfg initState (run_automation cfg env).2 := by
  unfold run_automation
  split
  · next e st heq =>
    have h := stepOK_doLogin cfg env.login initState
    rwa [heq] at h
  · next st heq =>
    have h1 := stepOK_doLogin cfg env.login initState
    rw [heq] at h1
    split
    · next e st' heq2 =>
      have h2 := stepOK_runKeywords cfg env cfg.keywords 0 st
      rw [heq2] at h2
      exact stepOK_trans h1 h2
    · next st' heq2 =>
      have h2 := stepOK_runKeywords cfg env cfg.keywords 0 st
      rw [heq2] at h2
      exact stepOK_trans h1 (stepOK_trans h2 (stepOK_pushClose cfg st'))

/-! ### Concrete environments used to instantiate the theorems -/

/-- A login oracle whose destination is the feed. -/
def okLoginO : LoginOracle :=
  ⟨.ok (), .ok (), .ok (), .ok (), .ok (), "https://www.linkedin.com/feed/"⟩

/-- A login oracle that settles on a non-feed, non-network page. -/
def badLoginO : LoginOracle :=
  ⟨.ok (), .ok (), .ok (), .ok (), .ok (), "https://www.linkedin.com/checkpoint/challenge/"⟩

/-- A fully cooperative profile visit: everything succeeds, the first button
selector, the rich-text field and the dedicated send button all resolve. -/
def okVisit : VisitOracle :=
  ⟨.ok (), .ok (), .ok true, .ok false, .ok false, .ok (), .ok true, .ok false,
   .ok (), .ok (), .ok true, .ok false, .ok (), .ok ()⟩

/-- A visit where no message-button selector resolves. -/
def noBtnVisit : VisitOracle :=
  ⟨.ok (), .ok (), .ok false, .ok false, .ok false, .ok (), .ok true, .ok false,
   .ok (), .ok (), .ok true, .ok false, .ok (), .ok ()⟩

/-- A visit where the button is found but neither text-field selector
resolves (real mode reaches the post-click delay, then skips). -/
def noBoxVisit : VisitOracle :=
  ⟨.ok (), .ok (), .ok true, .ok false, .ok false, .ok (), .ok false, .ok false,
   .ok (), .ok (), .ok true, .ok false, .ok (), .ok ()⟩

/-- A visit whose profile navigation raises. -/
def navFailVisit : VisitOracle :=
  ⟨.error "net::ERR_TIMED_OUT", .ok (), .ok true, .ok false, .ok false, .ok (),
   .ok true, .ok false, .ok (), .ok (), .ok true, .ok false, .ok (), .ok ()⟩

/-- A search-result entry whose three queries succeed: name element with the
given raw text, optional subtitle element, link element with the given href. -/
def okEntry (rawName : String) (titleTxt : Option String)
    (href : Option String) : RawEntry :=
  ⟨.ok (some ⟨.ok rawName, .ok none⟩),
   .ok (titleTxt.map fun t => (⟨.ok t, .ok none⟩ : Element)),
   .ok (some ⟨.ok "", .ok href⟩)⟩

def kdOf (entries : List RawEntry) (v : VisitOracle) : KeywordData :=
  ⟨.ok (), .ok (), .ok entries, fun _ => v⟩

def envOf (lo : LoginOracle) (kd : KeywordData) : Env := ⟨lo, fun _ => kd⟩

def twoEntries : List RawEntry :=
  [okEntry "Ana Lima" (some "Dev") (some "https://www.linkedin.com/in/ana?x=1"),
   okEntry "Bea Cruz" none (some "https://www.linkedin.com/in/bea")]

/-- Dry-run configuration, quota 10, delays [3, 7]. -/
def cfgDry : RunRequest :=
  ⟨"e@x.com", "pw", ["dev"], 10, 3, 7, true, "Ola {nome}, {cargo}."⟩

/-- Real-mode configuration, quota 10, delays [3, 7]. -/
def cfgReal : RunRequest :=
  ⟨"e@x.com", "pw", ["dev"], 10, 3, 7, false, "Ola {nome}, {cargo}."⟩

def envTwo : Env := envOf okLoginO (kdOf twoEntries okVisit)

/-! ### The claims -/

/-- C1: at every point of every run `totalSent ≤ max_messages`, and a
profile enters the per-profile machine only while `totalSent` is still
strictly below `max_messages` (so both the keyword loop and the profile
loop stop before processing another candidate once the quota is reached).
`max_messages` is a positive integer quota in the data model; the proof
needs only `0 ≤ max_messages`. -/
theorem quota_never_exceeded (cfg : RunRequest) (env : Env)
    (h : 0 ≤ cfg.max_messages) :
    (((run_automation cfg env).2.totalSent : Int) ≤ cfg.max_messages) ∧
    ∀ n, Event.profileEnter n ∈ (run_automation cfg env).2.trace →
      (n : Int) < cfg.max_messages := by
  obtain ⟨-, -, hbe, -, hts, -, -⟩ := stepOK_run cfg env
  constructor
  · exact hts (by simpa [initState] using h)
  · intro n hn
    have h0 : badEnter cfg (run_automation cfg env).2 = 0 := by
      rw [hbe]; rfl
    rw [badEnter, List.countP_eq_zero] at h0
    have hq := h0 _ hn
    simp [offQuota] at hq
    omega

theorem quota_never_exceeded_witness :
    (0 : Int) ≤ cfgDry.max_messages ∧
      ((run_automation cfgDry envTwo).2.totalSent : Int) ≤ cfgDry.max_messages :=
  ⟨by decide, (quota_never_exceeded cfgDry envTwo (by decide)).1⟩

/-- C2: every profile that enters the per-profile machine is appended to
exactly one of the four result lists: globally the number of outcome
records equals the number of profile entries, and each profile body grows
the four lists by exactly one record in total, each list either unchanged
or extended by one record for that profile. -/
theorem outcomes_partition (cfg : RunRequest) (env : Env) :
    outcomeCount (run_automation cfg env).2 = countEnter (run_automation cfg env).2 ∧
    ∀ p o st,
      outcomeCount (processProfile cfg p o st) = outcomeCount st + 1 ∧
      ((processProfile cfg p o st).sent = st.sent ∨
        (processProfile cfg p o st).sent = st.sent ++ [p]) ∧
      ((processProfile cfg p o st).would_send = st.would_send ∨
        ∃ m, (processProfile cfg p o st).would_send
              = st.would_send ++ [⟨p.name, p.title, p.url, m⟩]) ∧
      ((processProfile cfg p o st).skipped = st.skipped ∨
        ∃ r, (processProfile cfg p o st).skipped = st.skipped ++ [⟨p, r⟩]) ∧
      ((processProfile cfg p o st).errors = st.errors ∨
        ∃ m, (processProfile cfg p o st).errors = st.errors ++ [⟨p, m⟩]) := by
  constructor
  · have h := (stepOK_run cfg env).1
    have h0 : outcomeCount initState = 0 := rfl
    have h1 : countEnter initState = 0 := rfl
    omega
  · intro p o st
    exact ⟨outcomeCount_processProfile cfg p o st,
           (lists_processProfile cfg p o st).1,
           (lists_processProfile cfg p o st).2.1,
           (lists_processProfile cfg p o st).2.2.1,
           (lists_processProfile cfg p o st).2.2.2⟩

/-- A dry-run environment whose only entry has whitespace-only name text:
the extracted Profile has `name = ""`, the message affordance is located
(`okVisit.btnQ1 = .ok true`), yet `name.split()[0]` raises. -/
def envEmptyName : Env :=
  envOf okLoginO
    (kdOf [okEntry "   " (some "Dev") (some "https://www.linkedin.com/in/x")] okVisit)

/-- C3, counterexample: a dry run in which the message affordance of the
(single) processed profile was located, yet `would_send` is empty — the
profile is recorded in `errors` instead (the composition step raised
`IndexError` on the whitespace-only name), refuting "every profile for
which the message affordance was located is recorded in would_send". -/
theorem dry_run_lists_counterexample :
    cfgDry.dry_run = true ∧
    (envEmptyName.kwData 0).visits 0 = okVisit ∧ okVisit.btnQ1 = .ok true ∧
    countEnter (run_automation cfgDry envEmptyName).2 = 1 ∧
    (run_automation cfgDry envEmptyName).2.sent = [] ∧
    (run_automation cfgDry envEmptyName).2.would_send = [] ∧
    (run_automation cfgDry envEmptyName).2.errors =
      [⟨⟨"", "Dev", "https://www.linkedin.com/in/x"⟩, "list index out of range"⟩] :=
  ⟨by decide, rfl, rfl, by decide, by decide, by decide, by decide⟩

/-- C3, amended: in a dry run `sent` stays empty and every profile whose
affordance was located *and whose name has at least one whitespace-delimited
token* is recorded in `would_send` (with the composed preview, counting
toward the quota, consulting no click/fill/send oracle field); a located
profile with a token-less name is recorded in `errors` instead.  In a real
run `would_send` stays empty. -/
theorem dry_run_lists (cfg : RunRequest) (env : Env) :
    (cfg.dry_run = true → (run_automation cfg env).2.sent = []) ∧
    (cfg.dry_run = false → (run_automation cfg env).2.would_send = []) ∧
    ∀ p o st f rest, cfg.dry_run = true → o.nav = .ok () → o.navWait = .ok () →
      locateFirst [o.btnQ1, o.btnQ2, o.btnQ3] = .ok true →
      pySplitWs p.name = f :: rest →
      (processProfile cfg p o st).would_send
          = st.would_send ++ [⟨p.name, p.title, p.url,
              pyReplace (pyReplace cfg.message_template "{nome}" f) "{cargo}"
                (if p.title = "" then "profissional" else p.title)⟩] ∧
      (processProfile cfg p o st).totalSent = st.totalSent + 1 ∧
      (processProfile cfg p o st).sent = st.sent := by
  obtain ⟨-, -, -, -, -, hdry, hreal⟩ := stepOK_run cfg env
  refine ⟨fun h => by rw [hdry h]; rfl, fun h => by rw [hreal h]; rfl, ?_⟩
  intro p o st f rest h1 h2 h3 h4 h5
  rw [dry_located_processProfile cfg p o st f rest h1 h2 h3 h4 h5]
  simp [wouldAppend, pushDelay, pushEvent]

theorem dry_run_lists_witness :
    cfgDry.dry_run = true ∧ (run_automation cfgDry envTwo).2.sent = [] ∧
    pySplitWs (Profile.mk "Ana Lima" "Dev" "u").name = "Ana" :: ["Lima"] ∧
    (processProfile cfgDry ⟨"Ana Lima", "Dev", "u"⟩ okVisit initState).would_send
      = initState.would_send ++ [⟨"Ana Lima", "Dev", "u",
          pyReplace (pyReplace cfgDry.message_template "{nome}" "Ana") "{cargo}"
            (if ("Dev" : String) = "" then "profissional" else "Dev")⟩] :=
  ⟨by decide, (dry_run_lists cfgDry envTwo).1 (by decide), by decide,
   ((dry_run_lists cfgDry envTwo).2.2 ⟨"Ana Lima", "Dev", "u"⟩ okVisit initState
      "Ana" ["Lima"] (by decide) (by decide) (by decide) (by decide) (by decide)).1⟩

/-- C4: a failure raised while processing one profile is caught at the
profile boundary: a navigation fault is recorded as exactly one `Errored`
record carrying the raised message (with the other lists and the counter
untouched), in general the `errors` list grows by at most one record for
the profile — and when it grows, nothing else changes — and the loop then
continues with the next profile. -/
theorem profile_failures_contained (cfg : RunRequest) (p : Profile)
    (o : VisitOracle) (st : RunState) :
    (∀ e, o.nav = .error e →
      processProfile cfg p o st =
        interDelay cfg
          (errAppend (pushDelay st .beforeProfile (ratOfInt cfg.delay_min) (ratOfInt cfg.delay_max)) p e)) ∧
    ((processProfile cfg p o st).errors = st.errors ∨
      ∃ m, (processProfile cfg p o st).errors = st.errors ++ [⟨p, m⟩] ∧
        (processProfile cfg p o st).sent = st.sent ∧
        (processProfile cfg p o st).would_send = st.would_send ∧
        (processProfile cfg p o st).skipped = st.skipped ∧
        (processProfile cfg p o st).totalSent = st.totalSent) ∧
    (∀ rest visits i, ¬ (st.totalSent : Int) ≥ cfg.max_messages →
      processProfiles cfg (p :: rest) visits i st =
        processProfiles cfg rest visits (i + 1)
          (processProfile cfg p (visits i)
            (pushEvent st (.profileEnter st.totalSent)))) := by
  refine ⟨?_, errors_processProfile cfg p o st,
          fun rest visits i h => processProfiles_cons cfg p rest visits i st h⟩
  intro e he
  unfold processProfile
  rw [he]

theorem profile_failures_contained_witness :
    navFailVisit.nav = .error "net::ERR_TIMED_OUT" ∧
    processProfile cfgReal ⟨"Ana Lima", "Dev", "u"⟩ navFailVisit initState =
      interDelay cfgReal
        (errAppend (pushDelay initState .beforeProfile (ratOfInt cfgReal.delay_min)
          (ratOfInt cfgReal.delay_max)) ⟨"Ana Lima", "Dev", "u"⟩ "net::ERR_TIMED_OUT") :=
  ⟨rfl, (profile_failures_contained cfgReal ⟨"Ana Lima", "Dev", "u"⟩
      navFailVisit initState).1 "net::ERR_TIMED_OUT" rfl⟩

/-- C5: message composition substitutes the first whitespace-delimited
token of the name for every `{nome}` and the title — or the fixed non-empty
literal `"profissional"` when the title is empty — for every `{cargo}`
(the two replacements applied in sequence, as in the source); in
particular `"Maria Clara Souza"` yields `"Maria"` and a non-empty title is
substituted verbatim. -/
theorem message_substitution :
    (∀ template name title f rest, pySplitWs name = f :: rest →
      build_message template name title =
        .ok (pyReplace (pyReplace template "{nome}" f) "{cargo}"
              (if title = "" then "profissional" else title))) ∧
    ("profissional" : String) ≠ "" ∧
    build_message "Ola {nome}, vi seu trabalho como {cargo}." "Maria Clara Souza" ""
      = .ok "Ola Maria, vi seu trabalho como profissional." ∧
    build_message "Ola {nome}, vi seu trabalho como {cargo}." "Maria Clara Souza"
        "Engenheira de Dados"
      = .ok "Ola Maria, vi seu trabalho como Engenheira de Dados." := by
  refine ⟨?_, by decide, by decide, by decide⟩
  intro t n ti f rest h
  simp [build_message, h]

theorem message_substitution_witness :
    pySplitWs "Maria Clara Souza" = "Maria" :: ["Clara", "Souza"] ∧
    build_message "{nome} e {cargo}" "Maria Clara Souza" "Engenheira de Dados"
      = .ok (pyReplace (pyReplace "{nome} e {cargo}" "{nome}" "Maria") "{cargo}"
          (if ("Engenheira de Dados" : String) = "" then "profissional"
           else "Engenheira de Dados")) :=
  ⟨by decide, message_substitution.1 "{nome} e {cargo}" "Maria Clara Souza"
      "Engenheira de Dados" "Maria" ["Clara", "Souza"] (by decide)⟩

/-- C6: when the login submission settles on a location indicating neither
a feed nor a network landing area, the run raises the fatal authentication
error before any search navigation: the final state shows exactly the
post-login pacing delay and the `browser.close()` call, no search
navigation event, no extracted profile and no outcome record. -/
theorem auth_failure_aborts (cfg : RunRequest) (env : Env)
    (h1 : env.login.gotoLogin = .ok ()) (h2 : env.login.fillUser = .ok ())
    (h3 : env.login.fillPass = .ok ()) (h4 : env.login.clickSubmit = .ok ())
    (h5 : env.login.waitLoad = .ok ())
    (hf : strContains env.login.url "feed" = false)
    (hm : strContains env.login.url "mynetwork" = false) :
    run_automation cfg env =
      (.error "Login falhou. Verifique credenciais ou CAPTCHA.",
       ⟨[], [], [], [], 0, [.delayEv .afterLogin 2 4, .browserClose]⟩) ∧
    (∀ u, Event.searchNav u ∉ (run_automation cfg env).2.trace) ∧
    Event.browserClose ∈ (run_automation cfg env).2.trace ∧
    outcomeCount (run_automation cfg env).2 = 0 := by
  have hrun : run_automation cfg env =
      (.error "Login falhou. Verifique credenciais ou CAPTCHA.",
       ⟨[], [], [], [], 0, [.delayEv .afterLogin 2 4, .browserClose]⟩) := by
    unfold run_automation doLogin
    rw [h1, h2, h3, h4, h5]
    simp [hf, hm, initState, pushDelay, pushEvent]
  refine ⟨hrun, ?_, ?_, ?_⟩
  · intro u
    rw [hrun]
    simp
  · rw [hrun]
    simp
  · rw [hrun]
    rfl

def envBadLogin : Env := envOf badLoginO (kdOf twoEntries okVisit)

theorem auth_failure_aborts_witness :
    (badLoginO.waitLoad = .ok () ∧ strContains badLoginO.url "feed" = false ∧
      strContains badLoginO.url "mynetwork" = false) ∧
    run_automation cfgReal envBadLogin =
      (.error "Login falhou. Verifique credenciais ou CAPTCHA.",
       ⟨[], [], [], [], 0, [.delayEv .afterLogin 2 4, .browserClose]⟩) :=
  ⟨⟨rfl, by decide, by decide⟩,
   (auth_failure_aborts cfgReal envBadLogin rfl rfl rfl rfl rfl
      (by decide) (by decide)).1⟩

/-- C7: a search-result entry whose driver calls succeed yields a Profile
exactly when the name element is present, the link element is present and
the link's href contains `"/in/"`; the Profile then carries the href
truncated before its query string, the trimmed first line of the name text
and the trimmed subtitle text (or `""` when the subtitle element is
absent).  An entry with a missing name or link element is dropped
(`extractEntry` returns `none`), contributing no record of any kind to the
run (it is simply absent from the extracted profile list). -/
theorem extraction_policy :
    (∀ rawName titleTxt href,
      extractEntry (okEntry rawName titleTxt (some href)) =
        (if href ≠ "" ∧ strContains href "/in/" = true then
          some ⟨pyStrip (pyFirstLine (pyStrip rawName)),
                (match titleTxt with | some t => pyStrip t | none => ""),
                pyBeforeQuery href⟩
         else none)) ∧
    (∀ e, e.name_el = .ok none → extractEntry e = none) ∧
    (∀ e, e.link_el = .ok none → extractEntry e = none) ∧
    (∀ e rest, extractEntry e = none →
      (e :: rest).filterMap extractEntry = rest.filterMap extractEntry) := by
  refine ⟨?_, ?_, ?_, ?_⟩
  · intro rawName titleTxt href
    cases titleTxt <;> simp [extractEntry, okEntry, Except.map]
  · intro e h
    unfold extractEntry
    rw [h]
    repeat' split
    all_goals simp_all
  · intro e h
    unfold extractEntry
    rw [h]
    repeat' split
    all_goals simp_all
  · intro e rest h
    simp [List.filterMap_cons, h]

theorem extraction_policy_witness :
    extractEntry (okEntry "Ana Lima\nVer perfil de Ana" (some "  Dev  ")
        (some "https://www.linkedin.com/in/ana?miniProfile=1")) =
      some ⟨"Ana Lima", "Dev", "https://www.linkedin.com/in/ana"⟩ ∧
    extractEntry (RawEntry.mk (.ok none) (.ok none) (.ok none)) = none := by
  constructor
  · rw [extraction_policy.1 "Ana Lima\nVer perfil de Ana" (some "  Dev  ")
        "https://www.linkedin.com/in/ana?miniProfile=1"]
    decide
  · exact extraction_policy.2.1 (RawEntry.mk (.ok none) (.ok none) (.ok none)) rfl

/-- Computable route to list membership (the `BEq`-based instance for `∈`
does not reduce well in the kernel; `countP` does). -/
theorem mem_of_countP_event (e : Event) (l : List Event)
    (h : 0 < l.countP (fun x => decide (x = e))) : e ∈ l := by
  obtain ⟨a, ha, hae⟩ := List.countP_pos_iff.mp h
  exact (of_decide_eq_true hae) ▸ ha

def envNoBox : Env :=
  envOf okLoginO
    (kdOf [okEntry "Ana Lima" (some "Dev") (some "https://www.linkedin.com/in/ana")]
      noBoxVisit)

/-- C8, counterexample: with the default-style configuration
`delay_min = 3`, `delay_max = 7`, a real-mode run records the inter-action
pacing delay after the message-button click with the hard-coded bounds
`[1, 2]` (line 189), and `[1, 2]` does not lie within
`[delay_min, delay_max] = [3, 7]`: the sampled wait can be as low as 1
second, refuting "every inter-action pacing delay lies within
[delay_min, delay_max]". -/
theorem interaction_delay_counterexample :
    Event.delayEv .afterBtnClick 1 2 ∈ (run_automation cfgReal envNoBox).2.trace ∧
    isInterDelay (Event.delayEv .afterBtnClick 1 2) = false ∧
    ¬ (ratOfInt cfgReal.delay_min ≤ 1 ∧ (2 : ℚ) ≤ ratOfInt cfgReal.delay_max) :=
  ⟨mem_of_countP_event _ _ (by decide), by decide, by decide⟩

/-- C8, amended: every recorded inter-profile delay has bounds exactly
`[delay_min + 2, delay_max + 3]` and the pre-profile pacing delay has
bounds exactly `[delay_min, delay_max]`, but the remaining inter-action
delays carry fixed bounds independent of the configuration: `[2, 4]` after
login, `[2, 3]` after a search and after profile navigation, `[1, 2]`
after the button click and after the send action, `[0.8, 1.5]` after
filling the text field. -/
theorem delay_bounds (cfg : RunRequest) (env : Env) :
    ∀ e ∈ (run_automation cfg env).2.trace, delayBoundsOK cfg e := by
  obtain ⟨-, -, -, hbd, -, -, -⟩ := stepOK_run cfg env
  intro e he
  have h0 : badDelay cfg (run_automation cfg env).2 = 0 := by
    rw [hbd]; rfl
  rw [badDelay, List.countP_eq_zero] at h0
  have hv := h0 e he
  simp at hv
  exact evOK_delayBoundsOK hv

theorem delay_bounds_witness :
    Event.delayEv .interProfile (ratOfInt 5) (ratOfInt 10) ∈ (run_automation cfgReal envTwo).2.trace ∧
    delayBoundsOK cfgReal (Event.delayEv .interProfile (ratOfInt 5) (ratOfInt 10)) :=
  ⟨mem_of_countP_event _ _ (by decide),
   delay_bounds cfgReal envTwo (Event.delayEv .interProfile (ratOfInt 5) (ratOfInt 10))
     (mem_of_countP_event _ _ (by decide))⟩

/-- C9, counterexample: a dry run in which two profiles enter the machine
and both reach the would-send terminal outcome, yet no inter-profile delay
is ever executed — the `continue` statements at lines 173, 186 and 196
bypass line 218 — refuting "after every profile, whatever terminal outcome
it reaches, the trailing inter-profile delay is executed before the next
profile is visited". -/
theorem trailing_delay_counterexample :
    countEnter (run_automation cfgDry envTwo).2 = 2 ∧
    (run_automation cfgDry envTwo).2.would_send.length = 2 ∧
    countInter (run_automation cfgDry envTwo).2 = 0 := by
  decide

/-- C9, amended: the trailing inter-profile delay (bounds
`[delay_min + 2, delay_max + 3]`) is executed exactly after those profiles
whose terminal outcome is Sent or Errored; a profile ending Skipped or
WouldSend proceeds to the next profile without it.  Globally the number of
inter-profile delays equals `sent.length + errors.length`, and each profile
body preserves that correspondence. -/
theorem trailing_delay_sent_errored (cfg : RunRequest) (env : Env) :
    countInter (run_automation cfg env).2 =
      (run_automation cfg env).2.sent.length +
        (run_automation cfg env).2.errors.length ∧
    ∀ p o st,
      countInter (processProfile cfg p o st) + st.sent.length + st.errors.length
        = countInter st + (processProfile cfg p o st).sent.length
            + (processProfile cfg p o st).errors.length := by
  constructor
  · have h := (stepOK_run cfg env).2.1
    have h0 : countInter initState = 0 := rfl
    have h1 : initState.sent.length = 0 := rfl
    have h2 : initState.errors.length = 0 := rfl
    omega
  · exact countInter_processProfile cfg

def envNoBtn : Env :=
  envOf okLoginO
    (kdOf [okEntry "Ana Lima" (some "Dev") (some "https://www.linkedin.com/in/ana")]
      noBtnVisit)

/-- C10: whenever a run passes authentication and returns a response, that
response has `success = true` — unconditionally, line 223 — including runs
in which every processed profile ended Skipped or Errored and `totalSent`
is zero. -/
theorem run_success_true (cfg : RunRequest) (env : Env) (resp : RunResponse)
    (h : (run_automation cfg env).1 = .ok resp) : resp.success = true := by
  unfold run_automation at h
  repeat' split at h
  all_goals injection h
  all_goals (rename_i h; rw [← h])

/-- The response of a real-mode run whose only profile is skipped. -/
def respNoBtn : RunResponse :=
  ⟨true, false, ⟨"real (mensagens enviadas)", 0, 1, 0⟩, [], [],
   [⟨⟨"Ana Lima", "Dev", "https://www.linkedin.com/in/ana"⟩,
     "Botao mensagem nao encontrado (nao e conexao)"⟩], []⟩

theorem run_success_true_witness :
    (run_automation cfgReal envNoBtn).1 = .ok respNoBtn ∧
      respNoBtn.success = true :=
  ⟨by decide, run_success_true cfgReal envNoBtn respNoBtn (by decide)⟩
